import Mathlib

/- A shallow embedding of the core logic of src/MA_RSI_stock_monitor.py:
   indicator computation (calculate_indicators), signal classification
   (check_ma_signals, check_rsi_status), fetch trimming (get_stock_data),
   view formatting (format_elements) and the staleness-gated refresh logic
   of the Streamlit main body (modelled as the function tick).

   Modelling conventions: pandas float cells are Option rationals with
   none standing for NaN; a value that in Python may be the object None,
   NaN or a number is a PyVal; a pandas row cell that may additionally be
   missing its column is a Cell.  HTML strings produced by the formatter
   are abstracted into inductive view labels that carry exactly the same
   case distinctions as the format strings in the source.  Wall-clock
   instants are rationals measured in seconds. -/

namespace StockMonitor

set_option maxRecDepth 100000

/-- A pandas row cell: the column may be absent from the row's index, hold
NaN, or hold a number. -/
inductive Cell where
  | absent
  | nan
  | num (q : ℚ)
  deriving DecidableEq, Repr

/-- The configuration dictionary built in the main body from the module
constants (window lengths, RSI thresholds, yfinance request parameters). -/
structure Config where
  maShort : Nat
  maMedium : Nat
  maLong : Nat
  rsiPeriod : Nat
  rsiOverbought : ℚ
  rsiOversold : ℚ
  rsiMidpoint : ℚ
  yfPeriod : String
  yfInterval : String
  deriving DecidableEq, Repr

/-- The module-level constants: MA 5/8/13, RSI 14 with thresholds 30/70/50,
yfinance period "1d" and interval "1m". -/
def defaultConfig : Config :=
  ⟨5, 8, 13, 14, 70, 30, 50, "1d", "1m"⟩

/-- The latest row handed to check_ma_signals / check_rsi_status: the Close
cell plus the four indicator cells. -/
structure PRow where
  close : Cell
  maS : Cell
  maM : Cell
  maL : Cell
  rsi : Cell
  deriving DecidableEq, Repr

/-- Return values of check_ma_signals (the strings returned by the Python
function). -/
inductive MaSignal where
  | NO_DATA
  | MA_MISSING
  | MA_NAN
  | BUY
  | SELL
  | HOLD
  deriving DecidableEq, Repr

/-- Return statuses of check_rsi_status (the strings returned by the Python
function). -/
inductive RsiStatus where
  | NO_DATA
  | RSI_NAN
  | Overbought
  | Oversold
  | Bullish
  | Bearish
  | Neutral
  deriving DecidableEq, Repr

/-- check_ma_signals (src lines 100-110): None input gives NO_DATA; a row
missing one of the three MA columns gives MA_MISSING; a NaN among them
gives MA_NAN; otherwise BUY when short > medium > long, SELL when
short < medium < long, HOLD otherwise.  The second component mirrors the
Python function returning latest_data (or None) alongside the signal. -/
def check_ma_signals (latest : Option PRow) (_config : Config) :
    MaSignal × Option PRow :=
  match latest with
  | none => (MaSignal.NO_DATA, none)
  | some r =>
    if r.maS = Cell.absent ∨ r.maM = Cell.absent ∨ r.maL = Cell.absent then
      (MaSignal.MA_MISSING, some r)
    else
      match r.maS, r.maM, r.maL with
      | Cell.num s, Cell.num m, Cell.num l =>
        if s > m ∧ m > l then (MaSignal.BUY, some r)
        else if s < m ∧ m < l then (MaSignal.SELL, some r)
        else (MaSignal.HOLD, some r)
      | _, _, _ => (MaSignal.MA_NAN, some r)

/-- check_rsi_status (src lines 112-123): None input gives NO_DATA; an
absent or NaN RSI cell gives RSI_NAN with no value; otherwise the if/elif
chain over the thresholds, returning the status together with the value. -/
def check_rsi_status (latest : Option PRow) (config : Config) :
    RsiStatus × Option ℚ :=
  match latest with
  | none => (RsiStatus.NO_DATA, none)
  | some r =>
    match r.rsi with
    | Cell.num v =>
      let status :=
        if v > config.rsiOverbought then RsiStatus.Overbought
        else if v < config.rsiOversold then RsiStatus.Oversold
        else if v > config.rsiMidpoint then RsiStatus.Bullish
        else if v < config.rsiMidpoint then RsiStatus.Bearish
        else RsiStatus.Neutral
      (status, some v)
    | _ => (RsiStatus.RSI_NAN, none)

/-- C1: for every row whose short, medium and long moving averages are all
defined (non-NaN numbers), check_ma_signals returns BUY iff
short > medium and medium > long, SELL iff short < medium and
medium < long, HOLD in every other case, and the three outcomes partition
the domain of defined triples with no overlap. -/
theorem C1_trend_partition (cfg : Config) (c r : Cell) (s m l : ℚ) :
    ((check_ma_signals (some ⟨c, Cell.num s, Cell.num m, Cell.num l, r⟩) cfg).1
        = MaSignal.BUY ↔ (s > m ∧ m > l)) ∧
    ((check_ma_signals (some ⟨c, Cell.num s, Cell.num m, Cell.num l, r⟩) cfg).1
        = MaSignal.SELL ↔ (s < m ∧ m < l)) ∧
    ((check_ma_signals (some ⟨c, Cell.num s, Cell.num m, Cell.num l, r⟩) cfg).1
        = MaSignal.HOLD ↔ (¬(s > m ∧ m > l) ∧ ¬(s < m ∧ m < l))) ∧
    ((check_ma_signals (some ⟨c, Cell.num s, Cell.num m, Cell.num l, r⟩) cfg).1
        = MaSignal.BUY ∨
     (check_ma_signals (some ⟨c, Cell.num s, Cell.num m, Cell.num l, r⟩) cfg).1
        = MaSignal.SELL ∨
     (check_ma_signals (some ⟨c, Cell.num s, Cell.num m, Cell.num l, r⟩) cfg).1
        = MaSignal.HOLD) := by
  by_cases hb : s > m ∧ m > l
  · have hns : ¬ (s < m ∧ m < l) := by
      rintro ⟨h1, _⟩
      exact absurd hb.1 (by linarith)
    simp [check_ma_signals, hb, hns]
  · by_cases hs : s < m ∧ m < l
    · simp [check_ma_signals, hb, hs]
    · simp [check_ma_signals, hb, hs]

/-- C2: for every defined RSI value v, check_rsi_status evaluates the
thresholds in strict priority order with first match winning
(v > overbought, then v < oversold, then v > midpoint, then v < midpoint,
else neutral); with the default thresholds (30, 50, 70): 75 is Overbought,
25 is Oversold, 55 is Bullish, 45 is Bearish, 50 is Neutral, and 70
exactly is not Overbought (strict comparison) but Bullish. -/
theorem C2_rsi_priority (cfg : Config) (c a b d : Cell) (v : ℚ) :
    (check_rsi_status (some ⟨c, a, b, d, Cell.num v⟩) cfg =
      ((if v > cfg.rsiOverbought then RsiStatus.Overbought
        else if v < cfg.rsiOversold then RsiStatus.Oversold
        else if v > cfg.rsiMidpoint then RsiStatus.Bullish
        else if v < cfg.rsiMidpoint then RsiStatus.Bearish
        else RsiStatus.Neutral), some v)) ∧
    (check_rsi_status (some ⟨Cell.nan, Cell.nan, Cell.nan, Cell.nan,
        Cell.num 75⟩) defaultConfig).1 = RsiStatus.Overbought ∧
    (check_rsi_status (some ⟨Cell.nan, Cell.nan, Cell.nan, Cell.nan,
        Cell.num 25⟩) defaultConfig).1 = RsiStatus.Oversold ∧
    (check_rsi_status (some ⟨Cell.nan, Cell.nan, Cell.nan, Cell.nan,
        Cell.num 55⟩) defaultConfig).1 = RsiStatus.Bullish ∧
    (check_rsi_status (some ⟨Cell.nan, Cell.nan, Cell.nan, Cell.nan,
        Cell.num 45⟩) defaultConfig).1 = RsiStatus.Bearish ∧
    (check_rsi_status (some ⟨Cell.nan, Cell.nan, Cell.nan, Cell.nan,
        Cell.num 50⟩) defaultConfig).1 = RsiStatus.Neutral ∧
    (check_rsi_status (some ⟨Cell.nan, Cell.nan, Cell.nan, Cell.nan,
        Cell.num 70⟩) defaultConfig).1 ≠ RsiStatus.Overbought ∧
    (check_rsi_status (some ⟨Cell.nan, Cell.nan, Cell.nan, Cell.nan,
        Cell.num 70⟩) defaultConfig).1 = RsiStatus.Bullish := by
  refine ⟨rfl, by decide, by decide, by decide, by decide, by decide,
    by decide, by decide⟩

/-- A computed indicator row: Close (already cleaned, so a number) plus the
three moving-average cells and the RSI cell, each possibly NaN. -/
structure IRow where
  close : ℚ
  maS : Option ℚ
  maM : Option ℚ
  maL : Option ℚ
  rsi : Option ℚ
  deriving DecidableEq, Repr

/-- The minimum-length precondition of calculate_indicators (src line 78):
max of the four window lengths plus 5. -/
def minRequired (cfg : Config) : Nat :=
  max (max cfg.maShort cfg.maMedium) (max cfg.maLong cfg.rsiPeriod) + 5

/-- pandas_ta sma: rolling mean with min_periods = length, NaN until the
window is full (w values ending at position i). -/
def smaAt (clean : List ℚ) (w : Nat) (i : Nat) : Option ℚ :=
  if i + 1 < w then none
  else some ((((List.range w).map (fun k => clean.getD (i - k) 0)).sum) / (w : ℚ))

/-- Weighted numerator of pandas ewm(alpha, adjust=True) over the inputs at
positions 1..t (position 0 of a diffed series is NaN and is skipped):
the sum of (1-alpha)^(t-j) * x j for j = 1..t. -/
def ewmNum (x : Nat → ℚ) (alpha : ℚ) : Nat → ℚ
  | 0 => 0
  | t + 1 => x (t + 1) + (1 - alpha) * ewmNum x alpha t

/-- Matching weight denominator: the sum of (1-alpha)^(t-j) for j = 1..t. -/
def ewmDen (alpha : ℚ) : Nat → ℚ
  | 0 => 0
  | t + 1 => 1 + (1 - alpha) * ewmDen alpha t

/-- close.diff(1) at position j (only read at positions j ≥ 1). -/
def diffAt (clean : List ℚ) (j : Nat) : ℚ :=
  clean.getD j 0 - clean.getD (j - 1) 0

/-- The positive-move series of pandas_ta rsi (negatives clipped to 0). -/
def gainAt (clean : List ℚ) (j : Nat) : ℚ := max (diffAt clean j) 0

/-- The negative-move series of pandas_ta rsi (positives clipped to 0,
kept non-positive; its absolute value is taken at the division). -/
def lossAt (clean : List ℚ) (j : Nat) : ℚ := min (diffAt clean j) 0

/-- pandas_ta rsi at position t: Wilder smoothing rma = ewm(alpha = 1/w,
min_periods = w) of the clipped diffs, then 100 * pa / (pa + |na|).  NaN
(none) while fewer than w diffs have been seen, and NaN when the
denominator is zero (0/0 on a flat window, as in pandas). -/
def rsiAt (clean : List ℚ) (w : Nat) (t : Nat) : Option ℚ :=
  if t < w then none
  else
    let alpha : ℚ := 1 / (w : ℚ)
    let pa := ewmNum (gainAt clean) alpha t / ewmDen alpha t
    let na := ewmNum (lossAt clean) alpha t / ewmDen alpha t
    if pa + |na| = 0 then none
    else some (100 * pa / (pa + |na|))

/-- The four series-aligned indicator columns of src lines 86-89, one row
per position of the cleaned Close series. -/
def indicatorRows (clean : List ℚ) (cfg : Config) : List IRow :=
  (List.range clean.length).map fun i =>
    ⟨clean.getD i 0, smaAt clean cfg.maShort i, smaAt clean cfg.maMedium i,
     smaAt clean cfg.maLong i, rsiAt clean cfg.rsiPeriod i⟩

/-- A row survives the dropna of src lines 90-93 iff all four indicator
cells are defined. -/
def allDefined (r : IRow) : Bool :=
  r.maS.isSome && r.maM.isSome && r.maL.isSome && r.rsi.isSome

/-- dropna over the four indicator columns (src lines 90-93). -/
def droppedRows (rows : List IRow) : List IRow := rows.filter allDefined

/-- The data value returned by calculate_indicators: Python None, the frame
without indicator columns, or the frame with the four columns. -/
inductive CalcResult where
  | noFrame
  | raw (closes : List (Option ℚ))
  | withIndicators (rows : List IRow)
  deriving DecidableEq, Repr

/-- The status strings returned by calculate_indicators: "Data_Empty",
"Need r (Have a)", "Need r (Have a clean)", "No data after indicator
calc", "OK". -/
inductive CalcStatus where
  | dataEmpty
  | insufficientRaw (required available : Nat)
  | insufficientClean (required available : Nat)
  | noUsable
  | ok
  deriving DecidableEq, Repr

/-- calculate_indicators (src lines 73-98).  None or empty input returns
(None, Data_Empty); a series shorter than the minimum returns the frame
with the required/available counts; after pd.to_numeric + dropna on Close
the length is re-checked; then the four indicator columns are computed,
rows with any undefined indicator are dropped, and an empty remainder
returns (None, "No data after indicator calc"), otherwise (frame, OK). -/
def calculate_indicators (data : Option (List (Option ℚ))) (cfg : Config) :
    CalcResult × CalcStatus :=
  match data with
  | none => (CalcResult.noFrame, CalcStatus.dataEmpty)
  | some closes =>
    if closes.isEmpty then (CalcResult.noFrame, CalcStatus.dataEmpty)
    else if closes.length < minRequired cfg then
      (CalcResult.raw closes,
       CalcStatus.insufficientRaw (minRequired cfg) closes.length)
    else
      let clean := closes.filterMap id
      if clean.length < minRequired cfg then
        (CalcResult.raw (clean.map some),
         CalcStatus.insufficientClean (minRequired cfg) clean.length)
      else
        let rows := droppedRows (indicatorRows clean cfg)
        if rows.isEmpty then (CalcResult.noFrame, CalcStatus.noUsable)
        else (CalcResult.withIndicators rows, CalcStatus.ok)

/-- Whether a calculate_indicators status is one of the two
"Need r (Have a)" insufficient-history statuses carrying counts. -/
def statusCarriesCounts : CalcStatus → Bool
  | CalcStatus.insufficientRaw _ _ => true
  | CalcStatus.insufficientClean _ _ => true
  | _ => false

/-- Whether a calculate_indicators data result carries the computed
indicator columns. -/
def hasIndicatorColumns : CalcResult → Bool
  | CalcResult.withIndicators _ => true
  | _ => false

/-- Whether a calculate_indicators data result carries any frame at all
(Python: the returned data object is not None). -/
def hasFrame : CalcResult → Bool
  | CalcResult.noFrame => false
  | _ => true

/-- A 19-point all-constant close series: long enough for the default
minimum of 19, but every diff is zero, so every RSI cell is NaN (0/0). -/
def constSeries19 : List (Option ℚ) := List.replicate 19 (some 10)

/-- C3 counterexample: the empty price series has (after discarding
nothing) fewer points than the default minimum of 19, yet
calculate_indicators returns the Data_Empty status, which carries no
required/available counts, not an insufficient-history status. -/
theorem C3_empty_series_counterexample :
    calculate_indicators (some ([] : List (Option ℚ))) defaultConfig =
      (CalcResult.noFrame, CalcStatus.dataEmpty) ∧
    statusCarriesCounts
      (calculate_indicators (some ([] : List (Option ℚ))) defaultConfig).2 = false ∧
    (([] : List (Option ℚ)).filterMap id).length < minRequired defaultConfig := by
  refine ⟨rfl, rfl, by decide⟩

/-- C3 (amended to non-empty series): every non-empty price series that,
after discarding unparseable closes, has fewer points than
max(windows) + 5 makes calculate_indicators return an insufficient-history
status carrying the required and available counts, and the returned data
never carries indicator columns. -/
theorem C3_insufficient_guard (closes : List (Option ℚ)) (cfg : Config)
    (hne : closes ≠ [])
    (hshort : (closes.filterMap id).length < minRequired cfg) :
    calculate_indicators (some closes) cfg =
      (if closes.length < minRequired cfg then
        (CalcResult.raw closes,
         CalcStatus.insufficientRaw (minRequired cfg) closes.length)
      else
        (CalcResult.raw ((closes.filterMap id).map some),
         CalcStatus.insufficientClean (minRequired cfg)
           (closes.filterMap id).length)) ∧
    statusCarriesCounts (calculate_indicators (some closes) cfg).2 = true ∧
    hasIndicatorColumns (calculate_indicators (some closes) cfg).1 = false := by
  have hemp : closes.isEmpty = false := by
    cases closes with
    | nil => exact absurd rfl hne
    | cons a t => rfl
  by_cases hraw : closes.length < minRequired cfg
  · constructor
    · simp [calculate_indicators, hemp, hraw]
    · constructor
      · simp [calculate_indicators, hemp, hraw, statusCarriesCounts]
      · simp [calculate_indicators, hemp, hraw, hasIndicatorColumns]
  · constructor
    · simp [calculate_indicators, hemp, hraw, hshort]
    · constructor
      · simp [calculate_indicators, hemp, hraw, hshort, statusCarriesCounts]
      · simp [calculate_indicators, hemp, hraw, hshort, hasIndicatorColumns]

/-- C3 witness: a concrete one-point series is non-empty, too short, and
calculate_indicators reports Need 19 (Have 1) with no indicator columns. -/
theorem C3_insufficient_guard_witness :
    calculate_indicators (some [some 1]) defaultConfig =
      (CalcResult.raw [some 1],
       CalcStatus.insufficientRaw (minRequired defaultConfig) 1) ∧
    hasIndicatorColumns
      (calculate_indicators (some [some 1]) defaultConfig).1 = false := by
  have h := C3_insufficient_guard [some 1] defaultConfig (by decide) (by decide)
  refine ⟨?_, h.2.2⟩
  have h1 := h.1
  rw [if_pos (by decide)] at h1
  exact h1

/-- C4 counterexample: on a 19-point constant series every RSI cell is NaN,
so after the dropna no rows remain; the code then returns the Python value
None (no frame at all) together with the no-usable-data status, not the
partially computed series as the claim states. -/
theorem C4_no_usable_returns_none_counterexample :
    hasFrame (calculate_indicators (some constSeries19) defaultConfig).1 = false ∧
    (calculate_indicators (some constSeries19) defaultConfig).2 =
      CalcStatus.noUsable := by
  constructor
  · with_unfolding_all decide
  · with_unfolding_all decide

/-- C4 (amended): once the length checks pass, calculate_indicators keeps
exactly the rows at which all four indicators are defined; if no rows
remain it returns (None, no-usable-data) — an absent result, not the
partially computed series — and otherwise the surviving rows with OK. -/
theorem C4_drop_and_no_usable (closes : List (Option ℚ)) (cfg : Config)
    (hne : closes ≠ [])
    (hraw : ¬ closes.length < minRequired cfg)
    (hclean : ¬ (closes.filterMap id).length < minRequired cfg) :
    (calculate_indicators (some closes) cfg =
      (if (droppedRows (indicatorRows (closes.filterMap id) cfg)).isEmpty then
        (CalcResult.noFrame, CalcStatus.noUsable)
      else
        (CalcResult.withIndicators
          (droppedRows (indicatorRows (closes.filterMap id) cfg)),
         CalcStatus.ok))) ∧
    (∀ r : IRow,
      r ∈ droppedRows (indicatorRows (closes.filterMap id) cfg) ↔
        (r ∈ indicatorRows (closes.filterMap id) cfg ∧ allDefined r = true)) := by
  have hemp : closes.isEmpty = false := by
    cases closes with
    | nil => exact absurd rfl hne
    | cons a t => rfl
  constructor
  · simp [calculate_indicators, hemp, hraw, hclean]
  · intro r
    simp [droppedRows, List.mem_filter]

/-- C4 witness: on the concrete 19-point constant series the hypotheses
hold, the dropna keeps nothing, and the result is (None, no-usable-data). -/
theorem C4_drop_and_no_usable_witness :
    calculate_indicators (some constSeries19) defaultConfig =
      (CalcResult.noFrame, CalcStatus.noUsable) := by
  have h := (C4_drop_and_no_usable constSeries19 defaultConfig (by decide)
    (by decide) (by decide)).1
  rw [h]
  rw [if_pos (by with_unfolding_all decide)]

/-- Outcome of one yfinance stock.history call: either an exception, or a
frame (possibly empty, possibly missing the Close column) whose Close
cells may be NaN. -/
inductive HistResult where
  | raise (msg : String)
  | frame (hasClose : Bool) (closes : List (Option ℚ))

/-- The status strings returned by get_stock_data (src lines 64-71). -/
inductive FetchStatus where
  | ok
  | noData (ticker period interval : String)
  | closeMissing (ticker : String)
  | fetchError (msg : String)
  deriving DecidableEq, Repr

/-- The intraday intervals of src line 61. -/
def intradayIntervals : List String :=
  ["1m", "2m", "5m", "15m", "30m", "60m", "90m"]

/-- The period actually requested (src line 61): a fixed "5d" when the
interval is intraday, the caller's period otherwise. -/
def histPeriod (period interval : String) : String :=
  if interval ∈ intradayIntervals then "5d" else period

/-- pandas DataFrame.tail(150): the most recent 150 rows. -/
def tail150 (l : List (Option ℚ)) : List (Option ℚ) :=
  l.drop (l.length - 150)

/-- get_stock_data (src lines 56-71): choose the request period, call the
data source; an exception becomes (None, fetch-error), an empty frame
(None, no-data), a frame without Close (None, close-missing); otherwise
the most recent 150 rows with "OK".  (Timezone stripping on the index is
presentation-only and not modelled.) -/
def get_stock_data (ticker period interval : String)
    (hist : String → String → String → HistResult) :
    Option (List (Option ℚ)) × FetchStatus :=
  let hp := histPeriod period interval
  match hist ticker hp interval with
  | HistResult.raise e => (none, FetchStatus.fetchError e)
  | HistResult.frame hasClose closes =>
    if closes.isEmpty then (none, FetchStatus.noData ticker hp interval)
    else if !hasClose then (none, FetchStatus.closeMissing ticker)
    else (some (tail150 closes), FetchStatus.ok)

/-- C9: for every successful fetch, the series handed onwards is the tail
of the source series: at most 150 points, exactly the most recent
min(length, 150) of them, with the rest of the source series in front. -/
theorem C9_tail_trim (ticker period interval : String)
    (hist : String → String → String → HistResult)
    (closes : List (Option ℚ))
    (hframe : hist ticker (histPeriod period interval) interval =
      HistResult.frame true closes)
    (hne : closes ≠ []) :
    get_stock_data ticker period interval hist =
      (some (tail150 closes), FetchStatus.ok) ∧
    (tail150 closes).length ≤ 150 ∧
    (tail150 closes).length = min closes.length 150 ∧
    closes = closes.take (closes.length - 150) ++ tail150 closes := by
  have hemp : closes.isEmpty = false := by
    cases closes with
    | nil => exact absurd rfl hne
    | cons a t => rfl
  refine ⟨?_, ?_, ?_, ?_⟩
  · simp [get_stock_data, hframe, hemp]
  · simp only [tail150, List.length_drop]
    omega
  · simp only [tail150, List.length_drop]
    omega
  · exact (List.take_append_drop (closes.length - 150) closes).symm

/-- C9 witness: a concrete three-point frame is returned whole (it is its
own tail), with status OK. -/
theorem C9_tail_trim_witness :
    get_stock_data "AAPL" "1d" "1m"
        (fun _ _ _ => HistResult.frame true [some 1, some 2, some 3]) =
      (some (tail150 [some 1, some 2, some 3]), FetchStatus.ok) ∧
    tail150 [some 1, some 2, some 3] = [some 1, some 2, some 3] := by
  refine ⟨(C9_tail_trim "AAPL" "1d" "1m" _ [some 1, some 2, some 3] rfl
    (by decide)).1, by decide⟩

/-- C10: for every intraday interval the lookback-period argument is
ignored — the request always uses the fixed period "5d", and
get_stock_data is invariant in the period argument; for a non-intraday
interval the request uses the caller's period. -/
theorem C10_intraday_period (p1 p2 ticker interval : String)
    (hist : String → String → String → HistResult) :
    (interval ∈ intradayIntervals →
      histPeriod p1 interval = "5d" ∧
      get_stock_data ticker p1 interval hist =
        get_stock_data ticker p2 interval hist) ∧
    (interval ∉ intradayIntervals → histPeriod p1 interval = p1) := by
  constructor
  · intro h
    have h1 : histPeriod p1 interval = "5d" := by
      simp [histPeriod, h]
    have h2 : histPeriod p2 interval = "5d" := by
      simp [histPeriod, h]
    refine ⟨h1, ?_⟩
    simp only [get_stock_data, h1, h2]
  · intro h
    simp [histPeriod, h]

/-- C10 witness: at the concrete intraday interval "1m" the request period
is "5d" whatever the caller passed, and at the daily interval "1d" the
caller's period "7d" is used. -/
theorem C10_intraday_period_witness :
    histPeriod "1d" "1m" = "5d" ∧
    get_stock_data "AAPL" "1d" "1m"
        (fun _ _ _ => HistResult.frame true [some 1]) =
      get_stock_data "AAPL" "1mo" "1m"
        (fun _ _ _ => HistResult.frame true [some 1]) ∧
    histPeriod "7d" "1d" = "7d" := by
  have h := C10_intraday_period "1d" "1mo" "AAPL" "1m"
    (fun _ _ _ => HistResult.frame true [some 1])
  have h2 := C10_intraday_period "7d" "7d" "AAPL" "1d"
    (fun _ _ _ => HistResult.frame true [some 1])
  exact ⟨(h.1 (by decide)).1, (h.1 (by decide)).2, h2.2 (by decide)⟩

/-- A Python value that may be the object None, the float NaN, or a
number (st.session_state.last_price takes all three shapes). -/
inductive PyVal where
  | pynone
  | nan
  | num (q : ℚ)
  deriving DecidableEq, Repr

/-- latest_row.get(Close): a NaN cell becomes the float NaN, a numeric
cell its number.  (The Close column is always present in the frames that
reach this code path.) -/
def cellPy : Option ℚ → PyVal
  | none => PyVal.nan
  | some q => PyVal.num q

/-- The price_flash animation choice of src lines 234-279. -/
inductive Flash where
  | up
  | down
  | noFlash
  deriving DecidableEq, Repr

/-- The price_info element: empty (INIT defaults), the formatted values,
or one of the two "Data Error: ..." branches. -/
inductive PriceInfo where
  | empty
  | values (price : Option ℚ) (maS maM maL : Option ℚ)
  | dataError (status : FetchStatus)
  | calcError (status : CalcStatus)
  deriving DecidableEq, Repr

/-- The ma_signal element: the INIT default, the three signal renderings,
the fallback that prints any other signal string, the calc-error
rendering, or the fetch-error rendering "MA: DATA_ERR". -/
inductive MaDisplay where
  | init
  | buy
  | sell
  | hold
  | other (sig : MaSignal)
  | calcError (status : CalcStatus)
  | dataErr
  deriving DecidableEq, Repr

/-- The rsi_info element: the INIT default, a status with its value, a
status-only rendering, the calc-error rendering, or "RSI: DATA_ERR". -/
inductive RsiDisplay where
  | init
  | withValue (status : RsiStatus) (v : ℚ)
  | statusOnly (status : RsiStatus)
  | calcError (status : CalcStatus)
  | dataErr
  deriving DecidableEq, Repr

/-- The output dictionary of format_elements (the clock string and the
HTML/color details are abstracted away; each constructor above records
which format string was chosen and the data it interpolates). -/
structure Elements where
  ticker : String
  price_info : PriceInfo
  ma_signal : MaDisplay
  rsi_info : RsiDisplay
  price_flash : Flash
  deriving DecidableEq, Repr

/-- Convert an indicator row to the pandas row seen by the two signal
checkers: all columns present, NaN cells for undefined indicators. -/
def toCell : Option ℚ → Cell
  | none => Cell.nan
  | some q => Cell.num q

/-- The latest row of the indicator frame as a pandas row. -/
def rowToPRow (r : IRow) : PRow :=
  ⟨Cell.num r.close, toCell r.maS, toCell r.maM, toCell r.maL, toCell r.rsi⟩

/-- The Close cell of the raw frame's last row. -/
def lastRowClose (l : List (Option ℚ)) : Option ℚ :=
  (l.getLast?).getD none

/-- The Close value of the latest_row variable at the price-flash block of
format_elements: none when latest_row was never assigned (data None or
empty, where the Python code hits a NameError inside its bare try/except),
otherwise the Close cell of the row in use — the last indicator row after
a fully successful calculation, the last raw row otherwise. -/
def displayClose (data : Option (List (Option ℚ))) (cfg : Config) :
    Option (Option ℚ) :=
  match data with
  | none => none
  | some l =>
    if l.isEmpty then none
    else
      match calculate_indicators (some l) cfg with
      | (CalcResult.withIndicators rows, CalcStatus.ok) =>
        match rows.getLast? with
        | some r => some (some r.close)
        | none => some (lastRowClose l)
      | _ => some (lastRowClose l)

/-- The price-flash block (src lines 233-279).  With a remembered price
(not None): a NameError (no latest row) leaves the remembered price
untouched with no flash; otherwise the current price is compared — the
comparison fires only when both are actual numbers (NaN comparisons are
False in Python) — and the remembered price is overwritten with the
current one.  With no remembered price: no flash, and the remembered
price is initialised from the current row (None again on NameError). -/
def flashAndPrice (dc : Option (Option ℚ)) (last_price : PyVal) :
    Flash × PyVal :=
  match last_price with
  | PyVal.pynone =>
    match dc with
    | none => (Flash.noFlash, PyVal.pynone)
    | some c => (Flash.noFlash, cellPy c)
  | lp =>
    match dc with
    | none => (Flash.noFlash, lp)
    | some c =>
      let cur := cellPy c
      let fl :=
        match cur, lp with
        | PyVal.num cq, PyVal.num lq =>
          if cq > lq then Flash.up
          else if cq < lq then Flash.down
          else Flash.noFlash
        | _, _ => Flash.noFlash
      (fl, cur)

/-- format_elements (src lines 142-281): builds the display elements and
returns the updated remembered price.  Structure mirrors the source: with
a non-empty frame, a fully successful indicator calculation renders the
values and the two signals, any other calculation outcome renders the
calculation status in all three slots; with no frame, a failed fetch
renders the fetch status and DATA_ERR labels, and a (never occurring)
OK-but-no-frame combination leaves the INIT defaults.  The price-flash
block then runs on the remembered price. -/
def format_elements (data : Option (List (Option ℚ))) (ticker : String)
    (cfg : Config) (fetch_status : FetchStatus) (last_price : PyVal) :
    Elements × PyVal :=
  let errorElems : CalcStatus → Elements := fun st =>
    ⟨ticker, PriceInfo.calcError st, MaDisplay.calcError st,
     RsiDisplay.calcError st, Flash.noFlash⟩
  let fetchErrorElems : Elements :=
    ⟨ticker, PriceInfo.dataError fetch_status, MaDisplay.dataErr,
     RsiDisplay.dataErr, Flash.noFlash⟩
  let initElems : Elements :=
    ⟨ticker, PriceInfo.empty, MaDisplay.init, RsiDisplay.init, Flash.noFlash⟩
  let elems : Elements :=
    match data with
    | some l =>
      if l.isEmpty then
        if fetch_status ≠ FetchStatus.ok then fetchErrorElems else initElems
      else
        match calculate_indicators (some l) cfg with
        | (CalcResult.withIndicators rows, CalcStatus.ok) =>
          match rows.getLast? with
          | some r =>
            let pr := rowToPRow r
            let maSig := (check_ma_signals (some pr) cfg).1
            let maDisp :=
              match maSig with
              | MaSignal.BUY => MaDisplay.buy
              | MaSignal.SELL => MaDisplay.sell
              | MaSignal.HOLD => MaDisplay.hold
              | sig => MaDisplay.other sig
            let rsiDisp :=
              match check_rsi_status (some pr) cfg with
              | (st, some v) => RsiDisplay.withValue st v
              | (st, none) => RsiDisplay.statusOnly st
            ⟨ticker, PriceInfo.values (some r.close) r.maS r.maM r.maL,
             maDisp, rsiDisp, Flash.noFlash⟩
          | none => errorElems CalcStatus.ok
        | (_, st) => errorElems st
    | none =>
      if fetch_status ≠ FetchStatus.ok then fetchErrorElems else initElems
  let fp := flashAndPrice (displayClose data cfg) last_price
  ({ elems with price_flash := fp.1 }, fp.2)

/-- The st.session_state fields driving the refresh logic (the login flag
and the placeholder handle are access-gate / presentation concerns outside
the modelled core; update_counter is initialised by the source and never
changed). -/
structure SessionState where
  ticker : String
  last_update_time : ℚ
  ticker_change_time : ℚ
  last_price : PyVal
  elements_ready : Bool
  update_counter : Nat
  deriving DecidableEq, Repr

/-- The external inputs of one Streamlit rerun: the wall clock, the ticker
text-input widget value, and the data source. -/
structure TickInput where
  now : ℚ
  ticker_input : String
  hist : String → String → String → HistResult

/-- CHECK_INTERVAL_SECONDS (src line 26). -/
def CHECK_INTERVAL_SECONDS : ℚ := 1

/-- ticker_input.upper().strip() (src line 341). -/
def normalizeTicker (s : String) : String := s.toUpper.trim

/-- The ticker-input handling of src lines 339-344: a non-empty widget
value whose normalisation differs from the current ticker updates the
ticker, records the change time and clears the remembered price. -/
def applyTickerInput (inp : TickInput) (s : SessionState) : SessionState :=
  if inp.ticker_input ≠ "" ∧ normalizeTicker inp.ticker_input ≠ s.ticker then
    { s with ticker := normalizeTicker inp.ticker_input,
             ticker_change_time := inp.now,
             last_price := PyVal.pynone }
  else s

/-- One scheduler tick of the main body (src lines 339-385): process the
ticker widget, then — only if the elapsed time since the last update
reaches the interval or the elements were never initialised — run one full
fetch/format/publish cycle, record the update time and mark the elements
initialised.  Returns the new session state and the published elements
(none on a skipped tick). -/
def tick (inp : TickInput) (s : SessionState) : SessionState × Option Elements :=
  let s1 := applyTickerInput inp s
  if CHECK_INTERVAL_SECONDS ≤ inp.now - s1.last_update_time ∨
      s1.elements_ready = false then
    let fetched := get_stock_data s1.ticker defaultConfig.yfPeriod
      defaultConfig.yfInterval inp.hist
    let fe := format_elements fetched.1 s1.ticker defaultConfig fetched.2
      s1.last_price
    ({ s1 with last_price := fe.2, last_update_time := inp.now,
               elements_ready := true }, some fe.1)
  else (s1, none)

/-- The remembered-price shape written by the price-flash block when no
price was remembered: None if there is no current row, else the current
row's Close. -/
def reinitLastPrice (dc : Option (Option ℚ)) : PyVal :=
  match dc with
  | none => PyVal.pynone
  | some c => cellPy c

theorem applyTickerInput_last_update_time (inp : TickInput) (s : SessionState) :
    (applyTickerInput inp s).last_update_time = s.last_update_time := by
  unfold applyTickerInput
  split <;> rfl

theorem applyTickerInput_elements_ready (inp : TickInput) (s : SessionState) :
    (applyTickerInput inp s).elements_ready = s.elements_ready := by
  unfold applyTickerInput
  split <;> rfl

theorem applyTickerInput_of_empty (inp : TickInput) (s : SessionState)
    (h : inp.ticker_input = "") : applyTickerInput inp s = s := by
  unfold applyTickerInput
  rw [if_neg]
  rintro ⟨h1, _⟩
  exact h1 h

theorem get_stock_data_none_status (ticker period interval : String)
    (hist : String → String → String → HistResult)
    (h : (get_stock_data ticker period interval hist).1 = none) :
    (get_stock_data ticker period interval hist).2 ≠ FetchStatus.ok := by
  cases hh : hist ticker (histPeriod period interval) interval with
  | raise e => simp [get_stock_data, hh]
  | frame hasClose closes =>
    by_cases h1 : closes.isEmpty
    · simp [get_stock_data, hh, h1]
    · cases hasClose with
      | true => simp [get_stock_data, hh, h1] at h
      | false => simp [get_stock_data, hh, h1]

theorem flashAndPrice_pynone (dc : Option (Option ℚ)) :
    flashAndPrice dc PyVal.pynone = (Flash.noFlash, reinitLastPrice dc) := by
  cases dc <;> rfl

theorem format_elements_pynone (data : Option (List (Option ℚ)))
    (ticker : String) (cfg : Config) (st : FetchStatus) :
    (format_elements data ticker cfg st PyVal.pynone).1.price_flash =
      Flash.noFlash ∧
    (format_elements data ticker cfg st PyVal.pynone).2 =
      reinitLastPrice (displayClose data cfg) := by
  simp only [format_elements, flashAndPrice_pynone]
  exact ⟨trivial, trivial⟩

theorem format_elements_fetch_failed (ticker : String) (cfg : Config)
    (st : FetchStatus) (lp : PyVal) (h : st ≠ FetchStatus.ok) :
    (format_elements none ticker cfg st lp).1 =
      ⟨ticker, PriceInfo.dataError st, MaDisplay.dataErr, RsiDisplay.dataErr,
       Flash.noFlash⟩ := by
  cases lp <;> simp [format_elements, displayClose, flashAndPrice, h]

/-- A data source that always raises a transport fault. -/
def histDown : String → String → String → HistResult :=
  fun _ _ _ => HistResult.raise "down"

/-- A data source that always returns a one-point frame with Close 100. -/
def histOne100 : String → String → String → HistResult :=
  fun _ _ _ => HistResult.frame true [some 100]

/-- A steady state: initialised, mid-stream, with a remembered price. -/
def sC5 : SessionState := ⟨"AAPL", 100, 0, PyVal.num 5, true, 0⟩

/-- A tick half a second after the last update that changes the ticker. -/
def inpC5 : TickInput := ⟨201 / 2, "MSFT", histOne100⟩

/-- C5 counterexample: a ticker change arriving half a second after the
last update (interval 1s) does not force a cycle: the tick right after the
change publishes nothing, refuting that the next tick executes a full
cycle unconditionally. -/
theorem C5_reset_not_forced_counterexample :
    (inpC5.ticker_input ≠ "" ∧
      normalizeTicker inpC5.ticker_input ≠ sC5.ticker) ∧
    inpC5.now - sC5.last_update_time < CHECK_INTERVAL_SECONDS ∧
    sC5.elements_ready = true ∧
    (tick inpC5 sC5).2 = none := by
  refine ⟨⟨by decide, by with_unfolding_all decide⟩,
    by with_unfolding_all decide, rfl, by with_unfolding_all decide⟩

/-- C5 (amended): a ticker change updates the ticker and clears the
remembered price, but does not itself force the next tick: the tick
following the change executes a full cycle exactly when the ordinary
staleness gate passes (elapsed time at least the interval, or elements
never initialised); when the tick is skipped the remembered price stays
cleared. -/
theorem C5_reset_gate (s : SessionState) (inp : TickInput)
    (hchange : inp.ticker_input ≠ "" ∧
      normalizeTicker inp.ticker_input ≠ s.ticker) :
    (((tick inp s).2).isSome = true ↔
      (CHECK_INTERVAL_SECONDS ≤ inp.now - s.last_update_time ∨
       s.elements_ready = false)) ∧
    (tick inp s).1.ticker = normalizeTicker inp.ticker_input ∧
    ((tick inp s).2 = none → (tick inp s).1.last_price = PyVal.pynone) := by
  have hs1 : applyTickerInput inp s =
      { s with ticker := normalizeTicker inp.ticker_input,
               ticker_change_time := inp.now,
               last_price := PyVal.pynone } := by
    unfold applyTickerInput
    rw [if_pos hchange]
  by_cases hg : CHECK_INTERVAL_SECONDS ≤ inp.now - s.last_update_time ∨
      s.elements_ready = false
  · simp [tick, hs1, hg]
  · simp [tick, hs1, hg]

/-- A fresh steady state whose last update was at time 0. -/
def sW5 : SessionState := ⟨"AAPL", 0, 0, PyVal.pynone, true, 0⟩

/-- A ticker-changing tick at time 5 against a failing data source. -/
def inpW5 : TickInput := ⟨5, "MSFT", histDown⟩

/-- C5 witness: with five seconds elapsed the gate passes, so the
ticker-changing tick does publish, and the new ticker is in force. -/
theorem C5_reset_gate_witness :
    ((tick inpW5 sW5).2).isSome = true ∧
    (tick inpW5 sW5).1.ticker = normalizeTicker "MSFT" := by
  have h := C5_reset_gate sW5 inpW5
    ⟨by decide, by with_unfolding_all decide⟩
  exact ⟨h.1.mpr (Or.inl (by with_unfolding_all decide)), h.2.1⟩

/-- A steady state with a remembered price of 5. -/
def s0C6 : SessionState := ⟨"AAPL", 0, 0, PyVal.num 5, true, 0⟩

/-- A plain tick at time 10 (cycle: price rises to 100). -/
def inp1C6 : TickInput := ⟨10, "", histOne100⟩

/-- A ticker-changing tick half a second later. -/
def inp2C6 : TickInput := ⟨21 / 2, "MSFT", histOne100⟩

/-- C6 counterexample: of two consecutive ticks with the second half a
second after the first, the second publishes nothing, yet it is not a
no-op on the session state: it carries a ticker change, which overwrites
the remembered last price (100 after the first cycle) with None. -/
theorem C6_ticker_change_mutates_counterexample :
    inp2C6.now - (tick inp1C6 s0C6).1.last_update_time <
      CHECK_INTERVAL_SECONDS ∧
    (tick inp1C6 s0C6).1.last_price = PyVal.num 100 ∧
    (tick inp2C6 (tick inp1C6 s0C6).1).2 = none ∧
    (tick inp2C6 (tick inp1C6 s0C6).1).1.last_price = PyVal.pynone := by
  refine ⟨by with_unfolding_all decide, by with_unfolding_all decide,
    by with_unfolding_all decide, by with_unfolding_all decide⟩

/-- C6 (amended): after initialisation, when the second of two consecutive
ticks arrives with less than the configured interval elapsed since the
last update and carries no ticker change, it is a complete no-op: no
cycle runs, nothing is published, and the whole session state (ticker,
last_update_time, last_price, everything) is unchanged. -/
theorem C6_staleness_noop (s0 : SessionState) (inp1 inp2 : TickInput)
    (hinit : s0.elements_ready = true)
    (hticker : inp2.ticker_input = "")
    (hfresh : inp2.now - (tick inp1 s0).1.last_update_time <
      CHECK_INTERVAL_SECONDS) :
    tick inp2 (tick inp1 s0).1 = ((tick inp1 s0).1, none) := by
  have hready : ((tick inp1 s0).1).elements_ready = true := by
    simp only [tick]
    split
    · rfl
    · rw [applyTickerInput_elements_ready]
      exact hinit
  conv_lhs => rw [tick]
  rw [applyTickerInput_of_empty inp2 _ hticker]
  rw [if_neg]
  rw [not_or]
  constructor
  · linarith
  · simp [hready]

/-- An uninitialised-free steady state for the C6 witness. -/
def s0W6 : SessionState := ⟨"AAPL", 0, 0, PyVal.pynone, true, 0⟩

/-- First witness tick at time 10 (executes a cycle). -/
def inp1W6 : TickInput := ⟨10, "", histOne100⟩

/-- Second witness tick half a second later, no ticker input. -/
def inp2W6 : TickInput := ⟨21 / 2, "", histOne100⟩

/-- C6 witness: at the concrete pair of ticks the second one returns the
first tick's state unchanged and publishes nothing. -/
theorem C6_staleness_noop_witness :
    tick inp2W6 (tick inp1W6 s0W6).1 = ((tick inp1W6 s0W6).1, none) := by
  exact C6_staleness_noop s0W6 inp1W6 inp2W6 rfl rfl
    (by with_unfolding_all decide)

/-- C7: every fetch failure (empty frame, missing Close column, raised
transport fault — exactly the cases in which get_stock_data hands back no
frame) still completes the cycle: the published view shows the explicit
fetch-error labels (DATA_ERR for both signals and the fetch status in the
price slot, no numeric values), and the last-refresh timestamp is still
advanced to the tick's time, so the failure does not shorten the interval
until the next attempt. -/
theorem C7_fetch_failure_cycle (s : SessionState) (inp : TickInput)
    (hticker : inp.ticker_input = "")
    (hgate : CHECK_INTERVAL_SECONDS ≤ inp.now - s.last_update_time ∨
      s.elements_ready = false)
    (hfail : (get_stock_data s.ticker defaultConfig.yfPeriod
      defaultConfig.yfInterval inp.hist).1 = none) :
    (tick inp s).2.map Elements.ma_signal = some MaDisplay.dataErr ∧
    (tick inp s).2.map Elements.rsi_info = some RsiDisplay.dataErr ∧
    (tick inp s).2.map Elements.price_info = some (PriceInfo.dataError
      (get_stock_data s.ticker defaultConfig.yfPeriod
        defaultConfig.yfInterval inp.hist).2) ∧
    (tick inp s).1.last_update_time = inp.now ∧
    (tick inp s).1.elements_ready = true := by
  have hst := get_stock_data_none_status s.ticker defaultConfig.yfPeriod
    defaultConfig.yfInterval inp.hist hfail
  have hfe := format_elements_fetch_failed s.ticker defaultConfig
    (get_stock_data s.ticker defaultConfig.yfPeriod
      defaultConfig.yfInterval inp.hist).2 s.last_price hst
  simp only [tick, applyTickerInput_of_empty inp s hticker]
  rw [if_pos hgate]
  rw [hfail]
  simp [hfe]

/-- Steady state for the C7 witness. -/
def sW7 : SessionState := ⟨"AAPL", 0, 0, PyVal.num 5, true, 0⟩

/-- A plain tick at time 5 against the always-raising data source. -/
def inpW7 : TickInput := ⟨5, "", histDown⟩

/-- C7 witness: with the raising data source the concrete tick publishes
the DATA_ERR view and advances the refresh timestamp to 5. -/
theorem C7_fetch_failure_cycle_witness :
    (tick inpW7 sW7).2.map Elements.ma_signal = some MaDisplay.dataErr ∧
    (tick inpW7 sW7).2.map Elements.rsi_info = some RsiDisplay.dataErr ∧
    (tick inpW7 sW7).1.last_update_time = 5 := by
  have h := C7_fetch_failure_cycle sW7 inpW7 rfl
    (Or.inl (by with_unfolding_all decide)) (by with_unfolding_all decide)
  exact ⟨h.1, h.2.1, h.2.2.2.1⟩

/-- C8: a ticker change clears the remembered last price, so the outcome
of the tick no longer depends on the pre-change remembered price at all;
the cycle run by that tick (if the gate lets one run) publishes no
price-direction flash and re-initialises the remembered price from the
newly fetched data; if no cycle runs the remembered price stays cleared,
and from any state with a cleared remembered price a later tick without
ticker input likewise publishes no flash while it stays cleared until a
cycle runs. -/
theorem C8_reset_clears_flash (s : SessionState) (inp : TickInput)
    (hchange : inp.ticker_input ≠ "" ∧
      normalizeTicker inp.ticker_input ≠ s.ticker) :
    (∀ p : PyVal, tick inp { s with last_price := p } = tick inp s) ∧
    ((tick inp s).2.map Elements.price_flash).getD Flash.noFlash =
      Flash.noFlash ∧
    ((tick inp s).2.isSome = true →
      (tick inp s).1.last_price = reinitLastPrice (displayClose
        (get_stock_data (normalizeTicker inp.ticker_input)
          defaultConfig.yfPeriod defaultConfig.yfInterval inp.hist).1
        defaultConfig)) ∧
    ((tick inp s).2.isSome = false →
      (tick inp s).1.last_price = PyVal.pynone) ∧
    (∀ s2 inp2, s2.last_price = PyVal.pynone → inp2.ticker_input = "" →
      (((tick inp2 s2).2.map Elements.price_flash).getD Flash.noFlash =
        Flash.noFlash ∧
       ((tick inp2 s2).2.isSome = false →
        (tick inp2 s2).1.last_price = PyVal.pynone))) := by
  have hs1 : ∀ p, applyTickerInput inp { s with last_price := p } =
      { s with ticker := normalizeTicker inp.ticker_input,
               ticker_change_time := inp.now,
               last_price := PyVal.pynone } := by
    intro p
    unfold applyTickerInput
    rw [if_pos]
    exact hchange
  have hs1s : applyTickerInput inp s =
      { s with ticker := normalizeTicker inp.ticker_input,
               ticker_change_time := inp.now,
               last_price := PyVal.pynone } := by
    unfold applyTickerInput
    rw [if_pos hchange]
  refine ⟨?_, ?_, ?_, ?_, ?_⟩
  · intro p
    simp only [tick, hs1, hs1s]
  · by_cases hg : CHECK_INTERVAL_SECONDS ≤ inp.now - s.last_update_time ∨
        s.elements_ready = false
    · simp [tick, hs1s, hg, (format_elements_pynone _ _ _ _).1]
    · simp [tick, hs1s, hg]
  · intro hsome
    by_cases hg : CHECK_INTERVAL_SECONDS ≤ inp.now - s.last_update_time ∨
        s.elements_ready = false
    · simp [tick, hs1s, hg, (format_elements_pynone _ _ _ _).2]
    · simp [tick, hs1s, hg] at hsome
  · intro hnone
    by_cases hg : CHECK_INTERVAL_SECONDS ≤ inp.now - s.last_update_time ∨
        s.elements_ready = false
    · simp [tick, hs1s, hg] at hnone
    · simp [tick, hs1s, hg]
  · intro s2 inp2 hlp hti
    by_cases hg : CHECK_INTERVAL_SECONDS ≤ inp2.now - s2.last_update_time ∨
        s2.elements_ready = false
    · constructor
      · simp [tick, applyTickerInput_of_empty inp2 s2 hti, hg, hlp,
          (format_elements_pynone _ _ _ _).1]
      · intro hnone
        simp [tick, applyTickerInput_of_empty inp2 s2 hti, hg] at hnone
    · constructor
      · simp [tick, applyTickerInput_of_empty inp2 s2 hti, hg]
      · intro _
        simp [tick, applyTickerInput_of_empty inp2 s2 hti, hg, hlp]

/-- Steady state with a remembered price of 55 for the C8 witness. -/
def sW8 : SessionState := ⟨"AAPL", 0, 0, PyVal.num 55, true, 0⟩

/-- A ticker-changing tick at time 7 against the one-point data source. -/
def inpW8 : TickInput := ⟨7, "TSLA", histOne100⟩

/-- C8 witness: the concrete post-change cycle publishes no flash and the
remembered price is re-initialised to the fetched Close 100, not compared
with the pre-change 55. -/
theorem C8_reset_clears_flash_witness :
    ((tick inpW8 sW8).2.map Elements.price_flash).getD Flash.noFlash =
      Flash.noFlash ∧
    (tick inpW8 sW8).1.last_price = PyVal.num 100 := by
  have h := C8_reset_clears_flash sW8 inpW8
    ⟨by decide, by with_unfolding_all decide⟩
  refine ⟨h.2.1, ?_⟩
  rw [h.2.2.1 (by with_unfolding_all decide)]
  with_unfolding_all decide

end StockMonitor
